import Mathlib

/-!  Floating-point model and the discrimination index (`get_sfdi`, lines 322-333). -/

/-- Extended rationals modelling IEEE-754 double values as used by the
numpy expressions in `get_sfdi`: an exact rational, `+inf`, `-inf`, or
`nan`.  Signed zero is not modelled; no expression in this development
distinguishes `+0.0` from `-0.0`. -/
inductive Flt where
  | num (q : ℚ)
  | inf
  | ninf
  | nan
deriving DecidableEq, Repr

/-- IEEE addition on `Flt`. -/
def fadd : Flt → Flt → Flt
  | Flt.num a, Flt.num b => Flt.num (a + b)
  | Flt.num _, Flt.inf => Flt.inf
  | Flt.num _, Flt.ninf => Flt.ninf
  | Flt.inf, Flt.num _ => Flt.inf
  | Flt.ninf, Flt.num _ => Flt.ninf
  | Flt.inf, Flt.inf => Flt.inf
  | Flt.ninf, Flt.ninf => Flt.ninf
  | Flt.inf, Flt.ninf => Flt.nan
  | Flt.ninf, Flt.inf => Flt.nan
  | Flt.nan, _ => Flt.nan
  | _, Flt.nan => Flt.nan

/-- IEEE multiplication on `Flt`. -/
def fmul : Flt → Flt → Flt
  | Flt.num a, Flt.num b => Flt.num (a * b)
  | Flt.num a, Flt.inf => if a = 0 then Flt.nan else if 0 < a then Flt.inf else Flt.ninf
  | Flt.num a, Flt.ninf => if a = 0 then Flt.nan else if 0 < a then Flt.ninf else Flt.inf
  | Flt.inf, Flt.num b => if b = 0 then Flt.nan else if 0 < b then Flt.inf else Flt.ninf
  | Flt.ninf, Flt.num b => if b = 0 then Flt.nan else if 0 < b then Flt.ninf else Flt.inf
  | Flt.inf, Flt.inf => Flt.inf
  | Flt.inf, Flt.ninf => Flt.ninf
  | Flt.ninf, Flt.inf => Flt.ninf
  | Flt.ninf, Flt.ninf => Flt.inf
  | Flt.nan, _ => Flt.nan
  | _, Flt.nan => Flt.nan

/-- IEEE division on `Flt`.  `x/0` is `±inf` for `x ≠ 0` and `nan` for
`x = 0`; a finite value divided by an infinity is `0`. -/
def fdiv : Flt → Flt → Flt
  | Flt.num a, Flt.num b =>
      if b = 0 then (if a = 0 then Flt.nan else if 0 < a then Flt.inf else Flt.ninf)
      else Flt.num (a / b)
  | Flt.num _, Flt.inf => Flt.num 0
  | Flt.num _, Flt.ninf => Flt.num 0
  | Flt.inf, Flt.num b => if 0 ≤ b then Flt.inf else Flt.ninf
  | Flt.ninf, Flt.num b => if 0 ≤ b then Flt.ninf else Flt.inf
  | Flt.inf, Flt.inf => Flt.nan
  | Flt.inf, Flt.ninf => Flt.nan
  | Flt.ninf, Flt.inf => Flt.nan
  | Flt.ninf, Flt.ninf => Flt.nan
  | Flt.nan, _ => Flt.nan
  | _, Flt.nan => Flt.nan

/-- Rational square-root approximation used to model `np.sqrt` on finite
nonnegative arguments.  It is exact on perfect squares of rationals —
the only finite arguments reached by the theorems below are `0` and
exact squares — and a floor-based approximation elsewhere. -/
def sqrtQ (q : ℚ) : ℚ := (Nat.sqrt (q.num.toNat * q.den) : ℚ) / (q.den : ℚ)

/-- `np.sqrt` on `Flt`: `nan` on negative finite arguments and `-inf`,
`inf` on `inf`, `nan`-propagating. -/
def fsqrt : Flt → Flt
  | Flt.num q => if q < 0 then Flt.nan else Flt.num (sqrtQ q)
  | Flt.inf => Flt.inf
  | Flt.ninf => Flt.nan
  | Flt.nan => Flt.nan

/-- First maximum of a rational list (`ndarray.max()`), `0` for `[]`. -/
def listMax : List ℚ → ℚ
  | [] => 0
  | x :: xs => xs.foldl max x

/-- Minimum of a rational list (`ndarray.min()`), `0` for `[]`. -/
def listMin : List ℚ → ℚ
  | [] => 0
  | x :: xs => xs.foldl min x

/-- Shallow embedding of `get_sfdi(sf_tuning_responses, mean_sweeps_trials, bias=5)`
(static_gratings.py lines 322-333):

    trial_mean = mean_sweeps_trials.mean()
    sse_part = np.sqrt(np.sum((mean_sweeps_trials - trial_mean)**2) / (len(mean_sweeps_trials) - bias))
    return (np.ptp(sf_tuning_responses)) / (np.ptp(sf_tuning_responses) + 2 * sse_part)

`np.ptp` raises `ValueError` on an empty array, which is the only
exception this function can raise; that case is the outer `none`.
(For empty `mean_sweeps_trials` numpy's mean is `nan` with a warning,
but the `nan` is consumed by an empty elementwise expression whose
`np.sum` is `0.0`, which the rational `trial_mean` below reproduces.) -/
def get_sfdi (sf_tuning_responses mean_sweeps_trials : List ℚ) (bias : ℤ) : Option Flt :=
  if sf_tuning_responses = [] then none
  else
    let trial_mean : ℚ := mean_sweeps_trials.sum / (mean_sweeps_trials.length : ℚ)
    let sum_sq : ℚ := (mean_sweeps_trials.map (fun x => (x - trial_mean) ^ 2)).sum
    let sse_part : Flt :=
      fsqrt (fdiv (Flt.num sum_sq) (Flt.num ((mean_sweeps_trials.length : ℚ) - (bias : ℚ))))
    let ptp : ℚ := listMax sf_tuning_responses - listMin sf_tuning_responses
    some (fdiv (Flt.num ptp) (fadd (Flt.num ptp) (fmul (Flt.num 2) sse_part)))

/-!  Spatial-frequency curve fit (`fit_sf_tuning`, lines 266-319). -/

/-- Model of `np.abs` on a rational scalar. -/
def ratAbs (q : ℚ) : ℚ := if q < 0 then -q else q

/-- The fixed dense evaluation grid `np.arange(0., 4.1, 0.1)`: 41 samples
`0.0, 0.1, …, 4.0`.  It is a constant of the source code, written out
literally at lines 287, 293, 296, 307, 310 and 314, independent of the
length of `sf_values`. -/
def denseGrid : List ℚ := (List.range 41).map (fun i : ℕ => (i : ℚ) / 10)

/-- Helper for `np.argmax`: scan with current best index/value, keeping
the earlier element on ties. -/
def argmaxAux : List ℚ → ℕ → ℚ → ℕ → ℕ
  | [], bi, _, _ => bi
  | x :: xs, bi, bv, i => if bv < x then argmaxAux xs i x (i + 1) else argmaxAux xs bi bv (i + 1)

/-- `np.argmax`: index of the first maximal element (`0` on `[]`, where
numpy would raise; every use below is on a nonempty list). -/
def argmaxIdx : List ℚ → ℕ
  | [] => 0
  | x :: xs => argmaxAux xs 0 x 1

/-- Helper for `np.argmin`, keeping the earlier element on ties. -/
def argminAux : List ℚ → ℕ → ℚ → ℕ → ℕ
  | [], bi, _, _ => bi
  | x :: xs, bi, bv, i => if x < bv then argminAux xs i x (i + 1) else argminAux xs bi bv (i + 1)

/-- `np.argmin`: index of the first minimal element (`0` on `[]`; the
source's `argmin` of an empty slice raises `ValueError`, which the
embedding of `fit_sf_tuning` handles as an explicit branch before any
use of `argminIdx`). -/
def argminIdx : List ℚ → ℕ
  | [] => 0
  | x :: xs => argminAux xs 0 x 1

/-- `np.abs(sf_prediction - (sf_prediction.max()/2.))` (lines 290, 291,
309, 313). -/
def halfMaxDiffs (pred : List ℚ) : List ℚ := pred.map (fun p => ratAbs (p - listMax pred / 2))

/-- `low_cut_ind = np.abs(...)[:sf_prediction.argmax()].argmin()`. -/
def lowCutInd (pred : List ℚ) : ℕ := argminIdx ((halfMaxDiffs pred).take (argmaxIdx pred))

/-- `high_cut_ind = np.abs(...)[sf_prediction.argmax():].argmin() + sf_prediction.argmax()`. -/
def highCutInd (pred : List ℚ) : ℕ :=
  argminIdx ((halfMaxDiffs pred).drop (argmaxIdx pred)) + argmaxIdx pred

/-- `gauss_function(x, a, x0, sigma) = a*np.exp(-(x-x0)**2/(2*sigma**2))`
(lines 336-337).  `np.exp` is external numerics; it is passed in as the
parameter `expF`. -/
def gauss_function (expF : ℚ → ℚ) (x a x0 sigma : ℚ) : ℚ :=
  a * expF (-(x - x0) ^ 2 / (2 * sigma ^ 2))

/-- `exp_function(x, a, b, c) = a*np.exp(-b*x)+c` (lines 340-341), with
`np.exp` abstracted as `expF`. -/
def exp_function (expF : ℚ → ℚ) (x a b c : ℚ) : ℚ := a * expF (-b * x) + c

/-- Shallow embedding of `fit_sf_tuning(sf_tuning_responses, sf_values,
pref_sf_index)` (lines 266-319).  The two `scipy.optimize.curve_fit`
calls are external solvers that either raise (caught by the source's
`try/except: pass`) or return a parameter triple `popt`; they are
abstracted as the arguments `gaussFit` and `expFit` (`none` = the fit
raised).  `sf_tuning_responses` enters the source only as data for the
abstracted `curve_fit` calls.  `np.exp` (inside the two model
functions) and `np.power(2, ·)` are abstracted as `expF` and `pow2`.
`np.NaN` outputs become `none`; the outer `Option` is `none` exactly
when the source raises (`sf_values[pref_sf_index]` out of bounds, line
303, the only statement outside a `try` that can raise).  Inside the
interior `try`, `argmin` of the empty slice `[:argmax]` raises
`ValueError` when `argmax == 0`; the exception is caught after
`fit_sf_ind`/`fit_sf` were already assigned, so those two fields keep
their fitted values while both cutoffs stay undefined; same for the
`pref_sf_index == len-1` boundary branch. -/
def fit_sf_tuning (sf_tuning_responses sf_values : List ℚ) (pref_sf_index : ℕ)
    (gaussFit expFit : Option (ℚ × ℚ × ℚ)) (expF pow2 : ℚ → ℚ) :
    Option (Option ℚ × Option ℚ × Option ℚ × Option ℚ) :=
  if 1 ≤ pref_sf_index ∧ pref_sf_index < sf_values.length - 1 then
    match gaussFit with
    | none => some (none, none, none, none)
    | some (a, x0, sigma) =>
      let sf_prediction := denseGrid.map (fun x => gauss_function expF x a x0 sigma)
      if argmaxIdx sf_prediction = 0 then
        some (some x0, some (2 / 100 * pow2 x0), none, none)
      else if 0 < lowCutInd sf_prediction then
        some (some x0, some (2 / 100 * pow2 x0),
          some (2 / 100 * pow2 (denseGrid.getD (lowCutInd sf_prediction) 0)), none)
      else if highCutInd sf_prediction < 4 then
        some (some x0, some (2 / 100 * pow2 x0), none,
          some (2 / 100 * pow2 (denseGrid.getD (highCutInd sf_prediction) 0)))
      else
        some (some x0, some (2 / 100 * pow2 x0), none, none)
  else
    match sf_values[pref_sf_index]? with
    | none => none
    | some v =>
      match expFit with
      | none => some (some (pref_sf_index : ℚ), some v, none, none)
      | some (a, b, c) =>
        let sf_prediction := denseGrid.map (fun x => exp_function expF x a b c)
        if pref_sf_index = 0 then
          some (some (pref_sf_index : ℚ), some v, none,
            some (2 / 100 * pow2 (denseGrid.getD (highCutInd sf_prediction) 0)))
        else if argmaxIdx sf_prediction = 0 then
          some (some (pref_sf_index : ℚ), some v, none, none)
        else
          some (some (pref_sf_index : ℚ), some v,
            some (2 / 100 * pow2 (denseGrid.getD (lowCutInd sf_prediction) 0)), none)

/-- Lookup table backing `ceExp`: pairs `(k^2, round(10000*exp(-k^2/50)))`
for `k = 0, …, 20`. -/
def expSqTab : List (ℤ × ℚ) :=
  [(0, 10000), (1, 9802), (4, 9231), (9, 8353), (16, 7261), (25, 6065), (36, 4868),
   (49, 3753), (64, 2780), (81, 1979), (100, 1353), (121, 889), (144, 561), (169, 340),
   (196, 198), (225, 111), (256, 60), (289, 31), (324, 15), (361, 7), (400, 3)]

/-- First-match association lookup over an integer-keyed table,
returning `0` when the key is absent. -/
def qlookup : List (ℤ × ℚ) → ℤ → ℚ
  | [], _ => 0
  | (k, v) :: ps, q => if k = q then v else qlookup ps q

/-- Concrete stand-in for `np.exp` used when instantiating theorems on
explicit Gaussian data: at each argument `q = -(k^2)/50` that arises
when a Gaussian with centre `2` and width `1/2` is evaluated on
`denseGrid`, `ceExp q` equals `exp(q)` rounded to 4 decimal places. -/
def ceExp (q : ℚ) : ℚ := qlookup expSqTab (-(50 * q)).num / 10000

/-- The 41 values of the Gaussian `gauss_function(·, 10000, 2, 1/2)` on
`denseGrid`, rounded as in `expSqTab`: a symmetric peak at grid index 20
(grid value `2.0`) whose half-max (5000) crossings fall nearest grid
indices 14 and 26 — both strictly inside the grid. -/
def gaussPred : List ℚ :=
  [3, 7, 15, 31, 60, 111, 198, 340, 561, 889, 1353, 1979, 2780, 3753, 4868, 6065,
   7261, 8353, 9231, 9802, 10000, 9802, 9231, 8353, 7261, 6065, 4868, 3753, 2780,
   1979, 1353, 889, 561, 340, 198, 111, 60, 31, 15, 7, 3]

/-!  Stimulus condition table, dimension discovery and cached state
(`__init__` lines 31-54, properties lines 56-102, `_get_stim_table_stats`
lines 150-161). -/

/-- A row of `self.stimulus_conditions`: a condition id and the `Ori`,
`SF` and `Phase` columns, each holding a number or the string sentinel
`'null'` (modelled as `none`). -/
structure StimCondition where
  cid : ℕ
  ori : Option ℚ
  sf : Option ℚ
  phase : Option ℚ
deriving DecidableEq, Repr

/-- One axis of `_get_stim_table_stats`:
`np.sort(stimulus_conditions.loc[stimulus_conditions[col] != 'null'][col].unique())` —
the distinct non-null values of a column, sorted ascending.  (`unique()`
keeps first-occurrence order and `np.sort` then sorts; as the deduplicated
values are distinct, the sorted result does not depend on that order.) -/
def axis_values (f : StimCondition → Option ℚ) (conds : List StimCondition) : List ℚ :=
  ((conds.filterMap f).dedup).insertionSort (· ≤ ·)

/-- The six cached attributes set in `__init__` (lines 33-38), each
`None` until `_get_stim_table_stats` populates it. -/
structure SGState where
  _orivals : Option (List ℚ)
  _number_ori : Option ℕ
  _sfvals : Option (List ℚ)
  _number_sf : Option ℕ
  _phasevals : Option (List ℚ)
  _number_phase : Option ℕ
deriving DecidableEq, Repr

/-- The state right after `__init__`: every cached attribute is `None`. -/
def initState : SGState := ⟨none, none, none, none, none, none⟩

/-- `_get_stim_table_stats` (lines 150-161), one binding per source
assignment, in source order.  Line 161 of the source reads
`self._number_sf = len(self._sfvals)` — it assigns `_number_sf` a second
time; no line ever assigns `_number_phase`. -/
def _get_stim_table_stats (conds : List StimCondition) (s0 : SGState) : SGState :=
  let s1 := { s0 with _orivals := some (axis_values StimCondition.ori conds) }
  let s2 := { s1 with _number_ori := some (axis_values StimCondition.ori conds).length }
  let s3 := { s2 with _sfvals := some (axis_values StimCondition.sf conds) }
  let s4 := { s3 with _number_sf := some (axis_values StimCondition.sf conds).length }
  let s5 := { s4 with _phasevals := some (axis_values StimCondition.phase conds) }
  let s6 := { s5 with _number_sf := some (axis_values StimCondition.sf conds).length }
  s6

/-- The `number_ori` property (lines 64-70): run the stats pass when the
cache is empty, then return the cached attribute; the returned value is
paired with the updated object state. -/
def number_ori (conds : List StimCondition) (s : SGState) : Option ℕ × SGState :=
  match s._number_ori with
  | none => let s2 := _get_stim_table_stats conds s; (s2._number_ori, s2)
  | some n => (some n, s)

/-- The `number_sf` property (lines 80-86). -/
def number_sf (conds : List StimCondition) (s : SGState) : Option ℕ × SGState :=
  match s._number_sf with
  | none => let s2 := _get_stim_table_stats conds s; (s2._number_sf, s2)
  | some n => (some n, s)

/-- The `phasevals` property (lines 88-94). -/
def phasevals (conds : List StimCondition) (s : SGState) : Option (List ℚ) × SGState :=
  match s._phasevals with
  | none => let s2 := _get_stim_table_stats conds s; (s2._phasevals, s2)
  | some v => (some v, s)

/-- The `number_phase` property (lines 96-102). -/
def number_phase (conds : List StimCondition) (s : SGState) : Option ℕ × SGState :=
  match s._number_phase with
  | none => let s2 := _get_stim_table_stats conds s; (s2._number_phase, s2)
  | some n => (some n, s)

/-- A two-row condition table with two distinct orientations, spatial
frequencies and phases. -/
def demoConds : List StimCondition :=
  [⟨0, some 0, some (2 / 100), some 0⟩, ⟨1, some 90, some (4 / 100), some (1 / 4)⟩]

/-!  Preferred-value search (`_get_pref_sf` lines 164-185,
`_get_pref_ori` lines 188-209, `_get_pref_phase` lines 212-233). -/

/-- Modelled from the spec: the error taxonomy of §7.  `MissingDataError`
(a unit has no statistic for a required condition) and
`UndefinedIndexError` (all-zero response vector in the selectivity
computation); both are raised by collaborator code (`stimulus_analysis.py`)
that is not among the source files. -/
inductive AnalysisError where
  | missingData
  | undefinedIndex
deriving DecidableEq, Repr

/-- `similar_conditions` (lines 178, 202, 226): for one axis value, the
ids of the conditions whose column equals that value. -/
def similar_conditions (f : StimCondition → Option ℚ) (conds : List StimCondition) (v : ℚ) :
    List ℕ :=
  (conds.filter (fun c => f c = some v)).map StimCondition.cid

/-- Modelled from the spec: `conditionwise_statistics` is built by the
parent class `StimulusAnalysis` (not among the source files); it is
keyed by (unit id, condition id) with a `spike_mean` column, `none`
meaning no recorded statistic.  The source's
`.loc[unit_id].loc[condition_inds]['spike_mean'].mean()` then averages
the unit's recorded means over the given condition ids (pandas `mean`
skips absent entries) and is undefined when none is recorded. -/
def spike_mean_of (stats : ℕ → ℕ → Option ℚ) (u : ℕ) (cids : List ℕ) : Option ℚ :=
  let present := cids.filterMap (stats u)
  if present = [] then none else some (present.sum / (present.length : ℚ))

/-- The per-axis-value mean responses: the `pd.DataFrame` of lines
179-183 (index = the sorted axis, one `spike_mean` cell per value). -/
def axis_means (f : StimCondition → Option ℚ) (conds : List StimCondition)
    (stats : ℕ → ℕ → Option ℚ) (u : ℕ) : List (ℚ × Option ℚ) :=
  (axis_values f conds).map (fun v => (v, spike_mean_of stats u (similar_conditions f conds v)))

/-- The rows of `axis_means` whose mean is defined, in axis order. -/
def defined_means (f : StimCondition → Option ℚ) (conds : List StimCondition)
    (stats : ℕ → ℕ → Option ℚ) (u : ℕ) : List (ℚ × ℚ) :=
  (axis_means f conds stats u).filterMap (fun p => p.2.map (fun m => (p.1, m)))

/-- First pair with the maximal second component, scanning left to
right (pandas `idxmax` returns the first maximiser in index order). -/
def firstMaxFrom (p : ℚ × ℚ) : List (ℚ × ℚ) → ℚ × ℚ
  | [] => p
  | q :: qs => firstMaxFrom (if p.2 < q.2 then q else p) qs

/-- `df.idxmax().iloc[0]` (lines 185, 209, 233) over the means frame,
with the spec-modelled `MissingDataError` when the unit has no recorded
statistic for any condition on the axis. -/
def pref_value (f : StimCondition → Option ℚ) (conds : List StimCondition)
    (stats : ℕ → ℕ → Option ℚ) (u : ℕ) : Except AnalysisError ℚ :=
  match defined_means f conds stats u with
  | [] => Except.error AnalysisError.missingData
  | p :: ps => Except.ok (firstMaxFrom p ps).1

/-- `_get_pref_sf` (lines 164-185). -/
def _get_pref_sf (conds : List StimCondition) (stats : ℕ → ℕ → Option ℚ) (u : ℕ) :
    Except AnalysisError ℚ :=
  pref_value StimCondition.sf conds stats u

/-- `_get_pref_ori` (lines 188-209). -/
def _get_pref_ori (conds : List StimCondition) (stats : ℕ → ℕ → Option ℚ) (u : ℕ) :
    Except AnalysisError ℚ :=
  pref_value StimCondition.ori conds stats u

/-- `_get_pref_phase` (lines 212-233). -/
def _get_pref_phase (conds : List StimCondition) (stats : ℕ → ℕ → Option ℚ) (u : ℕ) :
    Except AnalysisError ℚ :=
  pref_value StimCondition.phase conds stats u

/-- `metrics_df['pref_sf_sg'] = [self._get_pref_sf(unit) for unit in unit_ids]`
(line 134): a Python list comprehension propagates the first exception,
aborting the whole column (no default value is filled in). -/
def pref_sf_column (conds : List StimCondition) (stats : ℕ → ℕ → Option ℚ) :
    List ℕ → Except AnalysisError (List ℚ)
  | [] => Except.ok []
  | u :: us =>
    match _get_pref_sf conds stats u with
    | Except.error e => Except.error e
    | Except.ok v =>
      match pref_sf_column conds stats us with
      | Except.error e => Except.error e
      | Except.ok vs => Except.ok (v :: vs)

/-- A statistics table: unit 7 has spike means 2 and 5 on conditions 0
and 1; no other unit has any recorded statistic. -/
def demoStats : ℕ → ℕ → Option ℚ := fun u c =>
  if u = 7 then (if c = 0 then some 2 else if c = 1 then some 5 else none) else none

/-!  Orientation selectivity (`_get_osi` lines 236-263; `osi` and
`deg2rad` are imported from `.stimulus_analysis`, which is not among
the source files). -/

/-- Modelled from the spec: `osi(orivals_rad, tuning)` (§4.3) — the
`osi` helper of `stimulus_analysis.py` is not among the source files.
Each orientation is turned into a unit complex number `e^{iθ}` and the
response-weighted normalized vector sum `Σ(rₖ·e^{iθₖ})/Σ(rₖ)` is
formed; the reported index is its magnitude, in [0,1].  When all
responses in the selected set are exactly zero, the index is undefined
and the computation fails with the explicit `UndefinedIndexError`
instead of dividing `0` by `0`.  The trigonometric evaluation
`e^{iθ} = (cos θ, sin θ)` is external numerics, abstracted as `cis`;
the returned pair is the normalized vector sum, whose magnitude (an
external square root) is the index. -/
def osi (cis : ℚ → ℚ × ℚ) (orivals_rad : List ℚ) (tuning : List ℚ) :
    Except AnalysisError (ℚ × ℚ) :=
  if ∀ t ∈ tuning, t = 0 then Except.error AnalysisError.undefinedIndex
  else
    let pairs := orivals_rad.zip tuning
    let vx := (pairs.map (fun p => p.2 * (cis p.1).1)).sum
    let vy := (pairs.map (fun p => p.2 * (cis p.1).2)).sum
    Except.ok (vx / tuning.sum, vy / tuning.sum)

/-- `_get_osi(unit_id, pref_sf, pref_phase)` (lines 236-263): select
the conditions at the preferred spatial frequency and phase (line 253),
collect the unit's recorded spike means (the `df` lookup follows the
same statistics-table model as `spike_mean_of`), order them by
ascending orientation (line 259), and hand them to `osi` together with
the orientation axis converted to radians (`deg2rad`, external,
abstracted as `d2r`). -/
def _get_osi (d2r : ℚ → ℚ) (cis : ℚ → ℚ × ℚ) (conds : List StimCondition)
    (stats : ℕ → ℕ → Option ℚ) (u : ℕ) (pref_sf pref_phase : ℚ) :
    Except AnalysisError (ℚ × ℚ) :=
  let orivals_rad := (axis_values StimCondition.ori conds).map d2r
  let sel := conds.filter (fun c => c.sf = some pref_sf ∧ c.phase = some pref_phase)
  let rows := sel.filterMap (fun c => (stats u c.cid).map (fun m => (c.ori.getD 0, m)))
  let tuning := (rows.insertionSort (fun p q => p.1 ≤ q.1)).map Prod.snd
  osi cis orivals_rad tuning

/-- A statistics table where unit 3 responds with spike mean 0 to every
condition. -/
def demoZeroStats : ℕ → ℕ → Option ℚ := fun u _ => if u = 3 then some 0 else none

/-!  Helper lemmas. -/

theorem ratAbs_eq_abs (q : ℚ) : ratAbs q = |q| := by
  unfold ratAbs
  rcases lt_or_le q 0 with h | h
  · rw [if_pos h, abs_of_neg h]
  · rw [if_neg (not_lt.mpr h), abs_of_nonneg h]

set_option maxHeartbeats 2000000 in
theorem gaussPred_spec :
    denseGrid.map (fun x => gauss_function ceExp x 10000 2 (1 / 2)) = gaussPred := by
  norm_num [denseGrid, gauss_function, ceExp, expSqTab, qlookup, List.range_succ, gaussPred]

set_option maxHeartbeats 2000000 in
theorem gaussPred_max : listMax gaussPred = 10000 := by
  norm_num [gaussPred, listMax, max_def]

set_option maxHeartbeats 2000000 in
theorem gaussPred_argmax : argmaxIdx gaussPred = 20 := by
  norm_num [gaussPred, argmaxIdx, argmaxAux]

set_option maxHeartbeats 2000000 in
theorem gaussPred_halfMaxDiffs : halfMaxDiffs gaussPred = ([4997, 4993, 4985, 4969, 4940,
    4889, 4802, 4660, 4439, 4111, 3647, 3021, 2220, 1247, 132, 1065, 2261, 3353, 4231, 4802,
    5000, 4802, 4231, 3353, 2261, 1065, 132, 1247, 2220, 3021, 3647, 4111, 4439, 4660, 4802,
    4889, 4940, 4969, 4985, 4993, 4997] : List ℚ) := by
  rw [halfMaxDiffs, gaussPred_max]
  norm_num [gaussPred, ratAbs]

set_option maxHeartbeats 2000000 in
theorem gaussPred_lowCutInd : lowCutInd gaussPred = 14 := by
  rw [lowCutInd, gaussPred_halfMaxDiffs, gaussPred_argmax]
  norm_num [argminIdx, argminAux]

set_option maxHeartbeats 2000000 in
theorem gaussPred_highCutInd : highCutInd gaussPred = 26 := by
  rw [highCutInd, gaussPred_halfMaxDiffs, gaussPred_argmax]
  norm_num [argminIdx, argminAux]

theorem firstMaxFrom_mem (ps : List (ℚ × ℚ)) : ∀ p, firstMaxFrom p ps ∈ p :: ps := by
  induction ps with
  | nil => intro p; simp [firstMaxFrom]
  | cons q qs ih =>
    intro p
    rw [firstMaxFrom]
    by_cases h : p.2 < q.2
    · rw [if_pos h]
      have := ih q
      simp only [List.mem_cons] at this ⊢
      tauto
    · rw [if_neg h]
      have := ih p
      simp only [List.mem_cons] at this ⊢
      tauto

theorem firstMaxFrom_le (ps : List (ℚ × ℚ)) :
    ∀ p, ∀ q ∈ p :: ps, q.2 ≤ (firstMaxFrom p ps).2 := by
  induction ps with
  | nil =>
    intro p q hq
    rcases List.mem_cons.mp hq with rfl | hq'
    · simp [firstMaxFrom]
    · cases hq'
  | cons r rs ih =>
    intro p q hq
    rw [firstMaxFrom]
    by_cases h : p.2 < r.2
    · rw [if_pos h]
      rcases List.mem_cons.mp hq with rfl | hq'
      · exact le_trans (le_of_lt h) (ih r r (List.mem_cons_self r rs))
      · exact ih r q hq'
    · rw [if_neg h]
      rcases List.mem_cons.mp hq with rfl | hq'
      · exact ih q q (List.mem_cons_self q rs)
      · rcases List.mem_cons.mp hq' with rfl | hq''
        · exact le_trans (not_lt.mp h) (ih p p (List.mem_cons_self p rs))
        · exact ih p q (List.mem_cons_of_mem p hq'')

theorem firstMaxFrom_first (ps : List (ℚ × ℚ)) : ∀ p, ∃ l1 l2,
    p :: ps = l1 ++ firstMaxFrom p ps :: l2 ∧ ∀ q ∈ l1, q.2 < (firstMaxFrom p ps).2 := by
  induction ps with
  | nil => intro p; exact ⟨[], [], by simp [firstMaxFrom], by simp⟩
  | cons r rs ih =>
    intro p
    rw [firstMaxFrom]
    by_cases h : p.2 < r.2
    · rw [if_pos h]
      obtain ⟨l1, l2, heq, hlt⟩ := ih r
      refine ⟨p :: l1, l2, by rw [List.cons_append, ← heq], ?_⟩
      intro q hq
      rcases List.mem_cons.mp hq with rfl | hq'
      · exact lt_of_lt_of_le h (firstMaxFrom_le rs r r (List.mem_cons_self r rs))
      · exact hlt q hq'
    · rw [if_neg h]
      obtain ⟨l1, l2, heq, hlt⟩ := ih p
      cases l1 with
      | nil =>
        have hfm : firstMaxFrom p rs = p := by
          simpa using (congrArg (fun l => l.headD p) heq).symm
        refine ⟨[], r :: rs, by rw [hfm]; simp, by simp⟩
      | cons x l1' =>
        rw [List.cons_append] at heq
        have hx : x = p := by
          simpa using (congrArg (fun l => l.headD p) heq).symm
        have hrs : rs = l1' ++ firstMaxFrom p rs :: l2 := by
          simpa using congrArg List.tail heq
        refine ⟨p :: r :: l1', l2, ?_, ?_⟩
        · rw [List.cons_append, List.cons_append, ← hrs]
        · intro q hq
          rcases List.mem_cons.mp hq with rfl | hq'
          · exact hx ▸ hlt x (List.mem_cons_self x l1')
          · rcases List.mem_cons.mp hq' with rfl | hq''
            · exact lt_of_le_of_lt (not_lt.mp h) (hx ▸ hlt x (List.mem_cons_self x l1'))
            · exact hlt q (List.mem_cons_of_mem x hq'')

theorem mem_defined_means_iff (f : StimCondition → Option ℚ) (conds : List StimCondition)
    (stats : ℕ → ℕ → Option ℚ) (u : ℕ) (v m : ℚ) :
    (v, m) ∈ defined_means f conds stats u ↔
      v ∈ axis_values f conds ∧
        spike_mean_of stats u (similar_conditions f conds v) = some m := by
  unfold defined_means axis_means
  rw [List.mem_filterMap]
  constructor
  · rintro ⟨p, hp, hmap⟩
    rw [List.mem_map] at hp
    obtain ⟨w, hw, rfl⟩ := hp
    cases hmean : spike_mean_of stats u (similar_conditions f conds w) with
    | none => simp [hmean] at hmap
    | some mv =>
      simp only [hmean, Option.map_some'] at hmap
      obtain ⟨rfl, rfl⟩ := Prod.mk.injEq .. ▸ Option.some.inj hmap
      exact ⟨hw, hmean⟩
  · rintro ⟨hv, hm⟩
    refine ⟨(v, spike_mean_of stats u (similar_conditions f conds v)), ?_, ?_⟩
    · exact List.mem_map.mpr ⟨v, hv, rfl⟩
    · rw [hm, Option.map_some']

theorem pref_value_spec (f : StimCondition → Option ℚ) (conds : List StimCondition)
    (stats : ℕ → ℕ → Option ℚ) (u : ℕ)
    (h : ∃ c ∈ conds, ∃ v, f c = some v ∧ stats u c.cid ≠ none) :
    ∃ p m, pref_value f conds stats u = Except.ok p ∧ p ∈ axis_values f conds ∧
      spike_mean_of stats u (similar_conditions f conds p) = some m ∧
      (∀ v ∈ axis_values f conds, ∀ mv,
        spike_mean_of stats u (similar_conditions f conds v) = some mv → mv ≤ m) ∧
      ∃ l1 l2, defined_means f conds stats u = l1 ++ (p, m) :: l2 ∧ ∀ q ∈ l1, q.2 < m := by
  obtain ⟨c, hc, v, hfv, hstat⟩ := h
  have hvax : v ∈ axis_values f conds := by
    rw [axis_values, List.mem_insertionSort, List.mem_dedup]
    exact List.mem_filterMap.mpr ⟨c, hc, hfv⟩
  have hmean_ne : spike_mean_of stats u (similar_conditions f conds v) ≠ none := by
    cases hs : stats u c.cid with
    | none => exact absurd hs hstat
    | some x =>
      have hcid : c.cid ∈ similar_conditions f conds v := by
        rw [similar_conditions]
        exact List.mem_map.mpr ⟨c, List.mem_filter.mpr ⟨hc, by simp [hfv]⟩, rfl⟩
      have hpres : x ∈ (similar_conditions f conds v).filterMap (stats u) :=
        List.mem_filterMap.mpr ⟨c.cid, hcid, hs⟩
      rw [spike_mean_of]
      simp only [if_neg (List.ne_nil_of_mem hpres)]
      exact Option.some_ne_none _
  obtain ⟨mv, hmv⟩ := Option.ne_none_iff_exists'.mp hmean_ne
  have hmem : (v, mv) ∈ defined_means f conds stats u :=
    (mem_defined_means_iff f conds stats u v mv).mpr ⟨hvax, hmv⟩
  cases hd : defined_means f conds stats u with
  | nil => rw [hd] at hmem; cases hmem
  | cons p ps =>
    have hres : pref_value f conds stats u = Except.ok (firstMaxFrom p ps).1 := by
      unfold pref_value
      rw [hd]
    have hrmem : firstMaxFrom p ps ∈ defined_means f conds stats u := by
      rw [hd]; exact firstMaxFrom_mem ps p
    have hrchar := (mem_defined_means_iff f conds stats u
      (firstMaxFrom p ps).1 (firstMaxFrom p ps).2).mp (by simpa using hrmem)
    refine ⟨(firstMaxFrom p ps).1, (firstMaxFrom p ps).2, hres, hrchar.1, hrchar.2, ?_, ?_⟩
    · intro w hw mw hmw
      have : (w, mw) ∈ defined_means f conds stats u :=
        (mem_defined_means_iff f conds stats u w mw).mpr ⟨hw, hmw⟩
      rw [hd] at this
      exact firstMaxFrom_le ps p (w, mw) this
    · obtain ⟨l1, l2, heq, hlt⟩ := firstMaxFrom_first ps p
      exact ⟨l1, l2, by rw [heq], hlt⟩

/-!  The claims. -/

/-- C1 counterexample: a successful interior Gaussian fit (centre index
2.0, width 0.5, on a 5-point spatial-frequency axis with preferred
index 2) whose two half-max crossings land at dense-grid indices 14 and
26 — both strictly inside the sampled index range (neither at an
extreme boundary sample 0 or 40).  The claim says both cutoffs are then
reported; the code's `if low_cut_ind > 0: … elif high_cut_ind < 4: …`
reports only the low cutoff and leaves the high cutoff undefined
(`none`). -/
theorem c1_both_interior_counterexample :
    0 < lowCutInd gaussPred ∧ lowCutInd gaussPred < 40 ∧
      argmaxIdx gaussPred < highCutInd gaussPred ∧ highCutInd gaussPred < 40 ∧
      fit_sf_tuning [1, 2, 3, 2, 1] [2 / 100, 4 / 100, 8 / 100, 16 / 100, 32 / 100] 2
          (some (10000, 2, 1 / 2)) none ceExp (fun _ => 1) =
        some (some 2, some (2 / 100), some (2 / 100), none) := by
  refine ⟨by rw [gaussPred_lowCutInd]; norm_num,
    by rw [gaussPred_lowCutInd]; norm_num,
    by rw [gaussPred_argmax, gaussPred_highCutInd]; norm_num,
    by rw [gaussPred_highCutInd]; norm_num, ?_⟩
  have hlen : (1 ≤ 2 ∧ 2 < ([2 / 100, 4 / 100, 8 / 100, 16 / 100, 32 / 100] : List ℚ).length - 1) := by
    norm_num
  simp only [fit_sf_tuning, if_pos hlen, gaussPred_spec, gaussPred_argmax,
    gaussPred_lowCutInd]
  norm_num

/-- C1, amended: in the interior branch, after a successful Gaussian
fit (and a peak not at the very first dense sample), the low cutoff is
reported iff the low half-max crossing index is positive, while the
high cutoff is reported iff the low crossing index is 0 AND the high
crossing index is below 4 (an `elif`): at most one cutoff is ever
reported, so when both crossings are strictly interior only the low
cutoff is produced. -/
theorem c1_interior_cutoff_policy (resp sfv : List ℚ) (pref : ℕ) (a x0 sg : ℚ)
    (eF : Option (ℚ × ℚ × ℚ)) (expF pow2 : ℚ → ℚ)
    (h1 : 1 ≤ pref) (h2 : pref < sfv.length - 1)
    (hmax : argmaxIdx (denseGrid.map (fun x => gauss_function expF x a x0 sg)) ≠ 0) :
    ∃ lo hi, fit_sf_tuning resp sfv pref (some (a, x0, sg)) eF expF pow2 =
        some (some x0, some (2 / 100 * pow2 x0), lo, hi) ∧
      (lo ≠ none ↔ 0 < lowCutInd (denseGrid.map (fun x => gauss_function expF x a x0 sg))) ∧
      (hi ≠ none ↔ (lowCutInd (denseGrid.map (fun x => gauss_function expF x a x0 sg)) = 0 ∧
        highCutInd (denseGrid.map (fun x => gauss_function expF x a x0 sg)) < 4)) := by
  simp only [fit_sf_tuning, if_pos (And.intro h1 h2), if_neg hmax]
  by_cases hlow : 0 < lowCutInd (denseGrid.map (fun x => gauss_function expF x a x0 sg))
  · rw [if_pos hlow]
    refine ⟨_, _, rfl, ?_, ?_⟩
    · simp [hlow]
    · simp
      omega
  · rw [if_neg hlow]
    by_cases hhigh : highCutInd (denseGrid.map (fun x => gauss_function expF x a x0 sg)) < 4
    · rw [if_pos hhigh]
      refine ⟨_, _, rfl, ?_, ?_⟩
      · simp
        omega
      · simp [hhigh]
        omega
    · rw [if_neg hhigh]
      refine ⟨none, none, rfl, ?_, ?_⟩
      · simp
        omega
      · simp
        omega

/-- Witness for `c1_interior_cutoff_policy` at the counterexample's
concrete data. -/
theorem c1_interior_cutoff_policy_witness :
    ∃ lo hi, fit_sf_tuning [1, 2, 3, 2, 1] [2 / 100, 4 / 100, 8 / 100, 16 / 100, 32 / 100] 2
        (some (10000, 2, 1 / 2)) none ceExp (fun _ => 1) =
        some (some 2, some (2 / 100 * (fun _ : ℚ => (1 : ℚ)) 2), lo, hi) ∧
      (lo ≠ none ↔ 0 < lowCutInd (denseGrid.map (fun x => gauss_function ceExp x 10000 2 (1 / 2)))) ∧
      (hi ≠ none ↔ (lowCutInd (denseGrid.map (fun x => gauss_function ceExp x 10000 2 (1 / 2))) = 0 ∧
        highCutInd (denseGrid.map (fun x => gauss_function ceExp x 10000 2 (1 / 2))) < 4)) :=
  c1_interior_cutoff_policy [1, 2, 3, 2, 1] [2 / 100, 4 / 100, 8 / 100, 16 / 100, 32 / 100] 2
    10000 2 (1 / 2) none ceExp (fun _ => 1) (by norm_num) (by norm_num)
    (by rw [gaussPred_spec, gaussPred_argmax]; norm_num)

/-- C2: the code bug.  On a table with two distinct phases, the stats
pass fills `_number_ori` and `_number_sf` with the lengths of their
axes, and fills `_phasevals`, but leaves `_number_phase` as it was
(line 161 re-assigns `_number_sf` instead), so the `number_phase`
property returns `None` even though `phasevals` has 2 entries. -/
theorem c2_number_phase_never_set :
    (number_ori demoConds initState).1 = some 2 ∧
      (number_sf demoConds initState).1 = some 2 ∧
      (phasevals demoConds initState).1 = some [0, 1 / 4] ∧
      (_get_stim_table_stats demoConds initState)._number_phase = none ∧
      (number_phase demoConds initState).1 = none := by
  have haxis : ∀ f : StimCondition → Option ℚ, ∀ a b : ℚ,
      f ⟨0, some 0, some (2 / 100), some 0⟩ = some a →
      f ⟨1, some 90, some (4 / 100), some (1 / 4)⟩ = some b → a ≠ b →
      axis_values f demoConds = if a ≤ b then [a, b] else [b, a] := by
    intro f a b ha hb hab
    rw [axis_values, demoConds]
    simp only [List.filterMap_cons, List.filterMap_nil, ha, hb]
    rw [List.dedup_cons_of_not_mem (by simpa using hab), List.dedup_cons_of_not_mem (by simp),
      List.dedup_nil]
    by_cases h : a ≤ b
    · rw [if_pos h]
      simp [List.insertionSort, List.orderedInsert, h]
    · rw [if_neg h]
      simp [List.insertionSort, List.orderedInsert, h]
  have hori : axis_values StimCondition.ori demoConds = [0, 90] := by
    rw [haxis StimCondition.ori 0 90 rfl rfl (by norm_num)]
    norm_num
  have hsf : axis_values StimCondition.sf demoConds = [2 / 100, 4 / 100] := by
    rw [haxis StimCondition.sf (2 / 100) (4 / 100) rfl rfl (by norm_num)]
    norm_num
  have hphase : axis_values StimCondition.phase demoConds = [0, 1 / 4] := by
    rw [haxis StimCondition.phase 0 (1 / 4) rfl rfl (by norm_num)]
    norm_num
  refine ⟨?_, ?_, ?_, ?_, ?_⟩ <;>
    simp [number_ori, number_sf, phasevals, number_phase, _get_stim_table_stats, initState,
      hori, hsf, hphase]

/-- C3: for every unit with a recorded statistic for at least one
condition on the queried axis, each of `_get_pref_sf`, `_get_pref_ori`
and `_get_pref_phase` succeeds and returns a member of the
ascending-sorted axis whose mean-of-means response is a global maximum
over the axis values with a defined mean; on ties the first value in
ascending axis order is returned (all defined-mean axis entries before
the returned one are strictly smaller). -/
theorem c3_pref_search_maximiser :
    (∀ f : StimCondition → Option ℚ, ∀ conds : List StimCondition,
      List.Sorted (· ≤ ·) (axis_values f conds)) ∧
    (∀ conds stats u, (∃ c ∈ conds, ∃ v, StimCondition.sf c = some v ∧ stats u c.cid ≠ none) →
      ∃ p m, _get_pref_sf conds stats u = Except.ok p ∧
        p ∈ axis_values StimCondition.sf conds ∧
        spike_mean_of stats u (similar_conditions StimCondition.sf conds p) = some m ∧
        (∀ v ∈ axis_values StimCondition.sf conds, ∀ mv,
          spike_mean_of stats u (similar_conditions StimCondition.sf conds v) = some mv →
            mv ≤ m) ∧
        ∃ l1 l2, defined_means StimCondition.sf conds stats u = l1 ++ (p, m) :: l2 ∧
          ∀ q ∈ l1, q.2 < m) ∧
    (∀ conds stats u, (∃ c ∈ conds, ∃ v, StimCondition.ori c = some v ∧ stats u c.cid ≠ none) →
      ∃ p m, _get_pref_ori conds stats u = Except.ok p ∧
        p ∈ axis_values StimCondition.ori conds ∧
        spike_mean_of stats u (similar_conditions StimCondition.ori conds p) = some m ∧
        (∀ v ∈ axis_values StimCondition.ori conds, ∀ mv,
          spike_mean_of stats u (similar_conditions StimCondition.ori conds v) = some mv →
            mv ≤ m) ∧
        ∃ l1 l2, defined_means StimCondition.ori conds stats u = l1 ++ (p, m) :: l2 ∧
          ∀ q ∈ l1, q.2 < m) ∧
    (∀ conds stats u, (∃ c ∈ conds, ∃ v, StimCondition.phase c = some v ∧ stats u c.cid ≠ none) →
      ∃ p m, _get_pref_phase conds stats u = Except.ok p ∧
        p ∈ axis_values StimCondition.phase conds ∧
        spike_mean_of stats u (similar_conditions StimCondition.phase conds p) = some m ∧
        (∀ v ∈ axis_values StimCondition.phase conds, ∀ mv,
          spike_mean_of stats u (similar_conditions StimCondition.phase conds v) = some mv →
            mv ≤ m) ∧
        ∃ l1 l2, defined_means StimCondition.phase conds stats u = l1 ++ (p, m) :: l2 ∧
          ∀ q ∈ l1, q.2 < m) :=
  ⟨fun f conds => List.sorted_insertionSort (· ≤ ·) ((conds.filterMap f).dedup),
    fun conds stats u h => pref_value_spec StimCondition.sf conds stats u h,
    fun conds stats u h => pref_value_spec StimCondition.ori conds stats u h,
    fun conds stats u h => pref_value_spec StimCondition.phase conds stats u h⟩

/-- Witness for `c3_pref_search_maximiser`: its spatial-frequency
conjunct applied to the two-condition table and unit 7. -/
theorem c3_pref_search_maximiser_witness :
    ∃ p m, _get_pref_sf demoConds demoStats 7 = Except.ok p ∧
      p ∈ axis_values StimCondition.sf demoConds ∧
      spike_mean_of demoStats 7 (similar_conditions StimCondition.sf demoConds p) = some m ∧
      (∀ v ∈ axis_values StimCondition.sf demoConds, ∀ mv,
        spike_mean_of demoStats 7 (similar_conditions StimCondition.sf demoConds v) = some mv →
          mv ≤ m) ∧
      ∃ l1 l2, defined_means StimCondition.sf demoConds demoStats 7 = l1 ++ (p, m) :: l2 ∧
        ∀ q ∈ l1, q.2 < m :=
  c3_pref_search_maximiser.2.1 demoConds demoStats 7
    ⟨⟨0, some 0, some (2 / 100), some 0⟩, by simp [demoConds], 2 / 100, rfl,
      by simp [demoStats]⟩

/-- C4: when every recorded response of the selected condition set
(preferred spatial frequency and preferred phase) is exactly zero, the
orientation-selectivity computation fails with the explicit
undefined-index signal instead of returning 0 or NaN from a division
by zero. -/
theorem c4_osi_all_zero (d2r : ℚ → ℚ) (cis : ℚ → ℚ × ℚ) (conds : List StimCondition)
    (stats : ℕ → ℕ → Option ℚ) (u : ℕ) (psf pph : ℚ)
    (h : ∀ c ∈ conds, c.sf = some psf → c.phase = some pph →
      ∀ m, stats u c.cid = some m → m = 0) :
    _get_osi d2r cis conds stats u psf pph = Except.error AnalysisError.undefinedIndex := by
  simp only [_get_osi]
  have hall : ∀ t ∈ (((conds.filter
        (fun c => c.sf = some psf ∧ c.phase = some pph)).filterMap
          (fun c => (stats u c.cid).map (fun m => (c.ori.getD 0, m)))).insertionSort
            (fun p q => p.1 ≤ q.1)).map Prod.snd, t = 0 := by
    intro t ht
    rw [List.mem_map] at ht
    obtain ⟨p, hp, rfl⟩ := ht
    rw [List.mem_insertionSort, List.mem_filterMap] at hp
    obtain ⟨c, hcsel, hcmap⟩ := hp
    rw [List.mem_filter] at hcsel
    have hcprop : c.sf = some psf ∧ c.phase = some pph := by simpa using hcsel.2
    obtain ⟨m, hm, hpm⟩ := Option.map_eq_some'.mp hcmap
    have : p.2 = m := by rw [← hpm]
    rw [this]
    exact h c hcsel.1 hcprop.1 hcprop.2 m hm
  rw [osi, if_pos hall]

/-- Witness for `c4_osi_all_zero`: unit 3's responses are all zero. -/
theorem c4_osi_all_zero_witness :
    _get_osi (fun q => q) (fun _ => (1, 0)) demoConds demoZeroStats 3 (2 / 100) 0 =
      Except.error AnalysisError.undefinedIndex :=
  c4_osi_all_zero (fun q => q) (fun _ => (1, 0)) demoConds demoZeroStats 3 (2 / 100) 0
    (by intro c hc hsf hph m hm; simp [demoZeroStats] at hm; exact hm.symm)

/-- C5 counterexample: a call with exactly `bias = 5` per-trial values
(trial count ≤ bias) whose trials are not all equal.  The zero
denominator makes the standard error `+∞` (numpy emits a
RuntimeWarning, not an exception) and `get_sfdi` returns the numeric
value 0.0 — it does not fail with any error. -/
theorem c5_bias_counterexample :
    ((([0, 1, 2, 3, 4] : List ℚ).length : ℤ) ≤ 5) ∧
      get_sfdi [0, 3] [0, 1, 2, 3, 4] 5 = some (Flt.num 0) := by
  refine ⟨by norm_num, ?_⟩
  norm_num [get_sfdi, fdiv, fadd, fmul, fsqrt, listMax, listMin, sqrtQ]
  simp

/-- C5, amended: a degenerate denominator never raises.  When the trial
count equals the bias term and the trials are not all equal, the
standard-error term is `sqrt(positive/0) = +∞` and `get_sfdi` returns
the numeric value 0.0 (`range/(range + ∞)`). -/
theorem c5_bias_denominator_returns (resp trials : List ℚ) (bias : ℤ)
    (hresp : resp ≠ []) (hlen : (trials.length : ℤ) = bias)
    (hne : ∃ x ∈ trials, x ≠ trials.headD 0) :
    get_sfdi resp trials bias = some (Flt.num 0) := by
  obtain ⟨x, hx, hxne⟩ := hne
  simp only [get_sfdi, if_neg hresp]
  have hhead : trials.headD 0 ∈ trials := by
    cases trials with
    | nil => cases hx
    | cons a as => simp
  have hSpos : 0 < (trials.map
      (fun t => (t - trials.sum / (trials.length : ℚ)) ^ 2)).sum := by
    have hnonneg : ∀ z ∈ trials.map
        (fun t => (t - trials.sum / (trials.length : ℚ)) ^ 2), 0 ≤ z := by
      intro z hz
      rw [List.mem_map] at hz
      obtain ⟨t, _, rfl⟩ := hz
      exact sq_nonneg _
    have hy : ∃ y ∈ trials, y - trials.sum / (trials.length : ℚ) ≠ 0 := by
      by_cases hxm : x = trials.sum / (trials.length : ℚ)
      · refine ⟨trials.headD 0, hhead, ?_⟩
        rw [sub_ne_zero]
        intro hcontra
        exact hxne (by rw [hxm, hcontra])
      · exact ⟨x, hx, sub_ne_zero.mpr hxm⟩
    obtain ⟨y, hy, hym⟩ := hy
    have hmem : (y - trials.sum / (trials.length : ℚ)) ^ 2 ∈ trials.map
        (fun t => (t - trials.sum / (trials.length : ℚ)) ^ 2) :=
      List.mem_map.mpr ⟨y, hy, rfl⟩
    have h1 : 0 < (y - trials.sum / (trials.length : ℚ)) ^ 2 :=
      lt_of_le_of_ne (sq_nonneg _) (Ne.symm (pow_ne_zero 2 hym))
    exact lt_of_lt_of_le h1 (List.single_le_sum hnonneg _ hmem)
  have hden : (trials.length : ℚ) - (bias : ℚ) = 0 := by
    have h2 : ((trials.length : ℤ) : ℚ) = ((bias : ℤ) : ℚ) := by rw [hlen]
    push_cast at h2
    linarith
  rw [hden]
  have h1 : fdiv (Flt.num ((trials.map
      (fun t => (t - trials.sum / (trials.length : ℚ)) ^ 2)).sum)) (Flt.num 0) = Flt.inf := by
    simp only [fdiv]
    rw [if_true, if_neg (ne_of_gt hSpos), if_pos hSpos]
  rw [h1]
  have h2 : fmul (Flt.num 2) Flt.inf = Flt.inf := by
    simp only [fmul]
    norm_num
  rw [show fsqrt Flt.inf = Flt.inf from rfl, h2]
  rfl

/-- Witness for `c5_bias_denominator_returns`. -/
theorem c5_bias_denominator_returns_witness :
    get_sfdi [1, 4] [2, 3, 4, 5, 6] 5 = some (Flt.num 0) :=
  c5_bias_denominator_returns [1, 4] [2, 3, 4, 5, 6] 5 (by simp) (by norm_num)
    ⟨3, by norm_num, by norm_num⟩

/-- C6: a unit with no recorded statistic for any condition on the
spatial-frequency axis makes `_get_pref_sf` fail with the (spec-modelled)
`MissingDataError`, and the failure aborts the whole `pref_sf_sg` column
of `metrics` (line 134) rather than filling a default: the column
computation returns an error whenever such a unit is among the unit
ids. -/
theorem c6_missing_data_aborts (conds : List StimCondition) (stats : ℕ → ℕ → Option ℚ) (u : ℕ)
    (h : ∀ c ∈ conds, StimCondition.sf c ≠ none → stats u c.cid = none) :
    _get_pref_sf conds stats u = Except.error AnalysisError.missingData ∧
      ∀ units : List ℕ, u ∈ units →
        ∃ e, pref_sf_column conds stats units = Except.error e := by
  have hmean : ∀ v : ℚ, spike_mean_of stats u (similar_conditions StimCondition.sf conds v) =
      none := by
    intro v
    have hpres : (similar_conditions StimCondition.sf conds v).filterMap (stats u) = [] := by
      rw [List.filterMap_eq_nil_iff]
      intro cid hcid
      rw [similar_conditions, List.mem_map] at hcid
      obtain ⟨c, hcf, rfl⟩ := hcid
      rw [List.mem_filter] at hcf
      have hsome : StimCondition.sf c = some v := by simpa using hcf.2
      exact h c hcf.1 (by simp [hsome])
    rw [spike_mean_of]
    simp [hpres]
  have hdm : defined_means StimCondition.sf conds stats u = [] := by
    rw [defined_means, List.filterMap_eq_nil_iff]
    intro p hp
    rw [axis_means, List.mem_map] at hp
    obtain ⟨v, hv, rfl⟩ := hp
    simp [hmean v]
  have herr : _get_pref_sf conds stats u = Except.error AnalysisError.missingData := by
    rw [_get_pref_sf, pref_value.eq_def, hdm]
  refine ⟨herr, ?_⟩
  intro units hu
  induction units with
  | nil => cases hu
  | cons a us ih =>
    rcases List.mem_cons.mp hu with rfl | hu'
    · exact ⟨AnalysisError.missingData, by rw [pref_sf_column, herr]⟩
    · obtain ⟨e, he⟩ := ih hu'
      cases hfa : _get_pref_sf conds stats a with
      | error e2 => exact ⟨e2, by rw [pref_sf_column, hfa]⟩
      | ok w => exact ⟨e, by rw [pref_sf_column, hfa, he]⟩

/-- Witness for `c6_missing_data_aborts`: unit 9 has no statistics at
all in `demoStats`. -/
theorem c6_missing_data_aborts_witness :
    _get_pref_sf demoConds demoStats 9 = Except.error AnalysisError.missingData ∧
      ∃ e, pref_sf_column demoConds demoStats [7, 9] = Except.error e :=
  ⟨(c6_missing_data_aborts demoConds demoStats 9 (by intro c hc hsf; simp [demoStats])).1,
    (c6_missing_data_aborts demoConds demoStats 9 (by intro c hc hsf; simp [demoStats])).2
      [7, 9] (by simp)⟩

/-- C7: whenever the preferred index is 0 (first axis position) and the
axis is nonempty, `fit_sf_tuning` reports the fitted index as 0, the
preferred value as the raw first axis value `sf_values[0]` (not a fit
output), and the low cutoff as undefined — for every outcome of both
curve fits. -/
theorem c7_pref_zero_boundary (resp sfv : List ℚ) (gF eF : Option (ℚ × ℚ × ℚ))
    (expF pow2 : ℚ → ℚ) (h : sfv ≠ []) :
    ∃ hi, fit_sf_tuning resp sfv 0 gF eF expF pow2 =
      some (some 0, some (sfv.headD 0), none, hi) := by
  match sfv, h with
  | v :: rest, _ =>
    cases eF with
    | none => exact ⟨none, by simp [fit_sf_tuning]⟩
    | some t =>
      obtain ⟨a, b, c⟩ := t
      refine ⟨some (2 / 100 * pow2 (denseGrid.getD
        (highCutInd (denseGrid.map (fun x => exp_function expF x a b c))) 0)), ?_⟩
      simp [fit_sf_tuning]

/-- Witness for `c7_pref_zero_boundary`. -/
theorem c7_pref_zero_boundary_witness :
    ∃ hi, fit_sf_tuning [5, 4, 3] [2 / 100, 4 / 100, 8 / 100] 0 none none
        (fun q => q) (fun q => q) =
      some (some 0, some (([2 / 100, 4 / 100, 8 / 100] : List ℚ).headD 0), none, hi) :=
  c7_pref_zero_boundary [5, 4, 3] [2 / 100, 4 / 100, 8 / 100] none none
    (fun q => q) (fun q => q) (by simp)

/-- C8: with a strictly interior preferred index, a failed Gaussian fit
(`curve_fit` raised; the exception is caught by `except … pass`) makes
`fit_sf_tuning` return normally with all four outputs undefined. -/
theorem c8_interior_fit_failure (resp sfv : List ℚ) (pref : ℕ) (eF : Option (ℚ × ℚ × ℚ))
    (expF pow2 : ℚ → ℚ) (h1 : 1 ≤ pref) (h2 : pref < sfv.length - 1) :
    fit_sf_tuning resp sfv pref none eF expF pow2 = some (none, none, none, none) := by
  simp only [fit_sf_tuning, if_pos (And.intro h1 h2)]

/-- Witness for `c8_interior_fit_failure`. -/
theorem c8_interior_fit_failure_witness :
    fit_sf_tuning [1, 2, 1] [2 / 100, 4 / 100, 8 / 100] 1 none (some (1, 2, 3))
        (fun q => q) (fun q => q) =
      some (none, none, none, none) :=
  c8_interior_fit_failure [1, 2, 1] [2 / 100, 4 / 100, 8 / 100] 1 (some (1, 2, 3))
    (fun q => q) (fun q => q) (by norm_num) (by norm_num)

/-- C9 counterexample: per-trial values all equal (zero variance), six
of them with `bias = 5`, but the mean responses all equal too: the
range is 0, the index is `0/0 = NaN`, not 1.0. -/
theorem c9_constant_counterexample :
    get_sfdi [2, 2] [1, 1, 1, 1, 1, 1] 5 = some Flt.nan ∧
      some Flt.nan ≠ some (Flt.num 1) := by
  refine ⟨?_, by simp⟩
  norm_num [get_sfdi, fdiv, fadd, fmul, fsqrt, listMax, listMin, sqrtQ]
  simp

/-- C9, amended: for per-trial values all equal (zero variance), the
discrimination index is exactly 1.0 — provided the range of the mean
responses is nonzero and the trial count differs from the bias term;
when the response range is 0 the result is `0/0 = NaN` instead (see
the counterexample). -/
theorem c9_zero_variance_unity (resp trials : List ℚ) (bias : ℤ) (c : ℚ)
    (hresp : resp ≠ []) (heq : ∀ x ∈ trials, x = c)
    (hlen : (trials.length : ℤ) ≠ bias) (hptp : 0 < listMax resp - listMin resp) :
    get_sfdi resp trials bias = some (Flt.num 1) := by
  simp only [get_sfdi, if_neg hresp]
  have hS : (trials.map (fun t => (t - trials.sum / (trials.length : ℚ)) ^ 2)).sum = 0 := by
    cases htr : trials with
    | nil => simp
    | cons a as =>
      apply List.sum_eq_zero
      intro z hz
      rw [List.mem_map] at hz
      obtain ⟨t, ht, rfl⟩ := hz
      have hmean : (a :: as).sum / ((a :: as).length : ℚ) = c := by
        rw [List.sum_eq_card_nsmul (a :: as) c (by rw [← htr]; exact heq), nsmul_eq_mul]
        have hlenne : ((a :: as).length : ℚ) ≠ 0 := Nat.cast_ne_zero.mpr (by simp)
        exact mul_div_cancel_left₀ c hlenne
      rw [heq t (htr ▸ ht), hmean]
      ring
  rw [hS]
  have hden : (trials.length : ℚ) - (bias : ℚ) ≠ 0 := by
    intro h0
    apply hlen
    have : ((trials.length : ℤ) : ℚ) = ((bias : ℤ) : ℚ) := by push_cast; linarith
    exact_mod_cast this
  have h1 : fdiv (Flt.num 0) (Flt.num ((trials.length : ℚ) - (bias : ℚ))) = Flt.num 0 := by
    simp only [fdiv]
    rw [if_neg hden]
    norm_num
  rw [h1]
  have h2 : fsqrt (Flt.num 0) = Flt.num 0 := by
    simp only [fsqrt]
    rw [if_neg (by norm_num)]
    norm_num [sqrtQ]
  rw [h2]
  have h3 : fmul (Flt.num 2) (Flt.num 0) = Flt.num 0 := by
    simp only [fmul]
    norm_num
  rw [h3]
  have h4 : fadd (Flt.num (listMax resp - listMin resp)) (Flt.num 0) =
      Flt.num (listMax resp - listMin resp) := by
    simp only [fadd]
    norm_num
  rw [h4]
  simp only [fdiv]
  rw [if_neg (ne_of_gt hptp), div_self (ne_of_gt hptp)]

/-- Witness for `c9_zero_variance_unity`: three equal trials (count 3 ≠
bias 5) and responses of range 3. -/
theorem c9_zero_variance_unity_witness :
    get_sfdi [0, 3] [1, 1, 1] 5 = some (Flt.num 1) :=
  c9_zero_variance_unity [0, 3] [1, 1, 1] 5 1 (by simp)
    (by intro x hx; simpa using hx) (by norm_num)
    (by norm_num [listMax, listMin, max_def, min_def])

/-- C10: the dense evaluation grid is the fixed 41-sample list
`0.0, 0.1, …, 4.0` regardless of `sf_values` (first conjunct); the
whole interior branch is independent of the responses and of the axis
beyond the interiority test (second conjunct); a high half-max crossing
at dense index `≥ 4` is never reported even though indices `4 … 39` are
strictly inside the dense grid — the guard compares the crossing's
index against the literal 4, not the boundary sample (third conjunct);
and the grid's top value 4 differs from the top sampled index
`len(sf_values) - 1` whenever the axis length is not 5 (fourth
conjunct). -/
theorem c10_fixed_dense_grid :
    (denseGrid.length = 41 ∧ (∀ i : ℕ, i < 41 → denseGrid.getD i 0 = (i : ℚ) / 10) ∧
      denseGrid.getD 0 0 = 0 ∧ denseGrid.getD 40 0 = 4) ∧
    (∀ resp₁ resp₂ sfv₁ sfv₂ : List ℚ, ∀ pref₁ pref₂ : ℕ,
      ∀ gF eF : Option (ℚ × ℚ × ℚ), ∀ expF pow2 : ℚ → ℚ,
      1 ≤ pref₁ → pref₁ < sfv₁.length - 1 → 1 ≤ pref₂ → pref₂ < sfv₂.length - 1 →
      fit_sf_tuning resp₁ sfv₁ pref₁ gF eF expF pow2 =
        fit_sf_tuning resp₂ sfv₂ pref₂ gF eF expF pow2) ∧
    (∀ resp sfv : List ℚ, ∀ pref : ℕ, ∀ a x0 sg : ℚ, ∀ eF : Option (ℚ × ℚ × ℚ),
      ∀ expF pow2 : ℚ → ℚ, 1 ≤ pref → pref < sfv.length - 1 →
      4 ≤ highCutInd (denseGrid.map (fun x => gauss_function expF x a x0 sg)) →
      ∃ out, fit_sf_tuning resp sfv pref (some (a, x0, sg)) eF expF pow2 = some out ∧
        out.2.2.2 = none) ∧
    (∀ n : ℕ, n ≠ 5 → ¬((4 : ℚ) = (n : ℚ) - 1)) := by
  refine ⟨⟨by simp [denseGrid], ?_, ?_, ?_⟩, ?_, ?_, ?_⟩
  · intro i hi
    rw [denseGrid, List.getD_eq_getElem?_getD, List.getElem?_map, List.getElem?_range hi]
    simp
  · rw [denseGrid, List.getD_eq_getElem?_getD, List.getElem?_map,
      List.getElem?_range (by norm_num : (0 : ℕ) < 41)]
    simp
  · rw [denseGrid, List.getD_eq_getElem?_getD, List.getElem?_map,
      List.getElem?_range (by norm_num : (40 : ℕ) < 41)]
    norm_num
  · intro resp₁ resp₂ sfv₁ sfv₂ pref₁ pref₂ gF eF expF pow2 ha1 ha2 hb1 hb2
    simp only [fit_sf_tuning, if_pos (And.intro ha1 ha2), if_pos (And.intro hb1 hb2)]
  · intro resp sfv pref a x0 sg eF expF pow2 h1 h2 hhigh
    simp only [fit_sf_tuning, if_pos (And.intro h1 h2)]
    by_cases hm : argmaxIdx (denseGrid.map (fun x => gauss_function expF x a x0 sg)) = 0
    · exact ⟨_, by rw [if_pos hm], rfl⟩
    · rw [if_neg hm]
      by_cases hlow : 0 < lowCutInd (denseGrid.map (fun x => gauss_function expF x a x0 sg))
      · exact ⟨_, by rw [if_pos hlow], rfl⟩
      · rw [if_neg hlow, if_neg (by omega)]
        exact ⟨_, rfl, rfl⟩
  · intro n hn h
    have : (n : ℚ) = 5 := by linarith
    exact hn (by exact_mod_cast this)

/-- Witness for `c10_fixed_dense_grid`: its inner implications applied
at concrete inputs. -/
theorem c10_fixed_dense_grid_witness :
    denseGrid.getD 14 0 = (14 : ℚ) / 10 ∧
      fit_sf_tuning [1, 2, 1] [2 / 100, 4 / 100, 8 / 100] 1 none none (fun q => q) (fun q => q) =
        fit_sf_tuning [9, 9] [1, 2, 3, 4, 5, 6, 7] 3 none none (fun q => q) (fun q => q) ∧
      ¬((4 : ℚ) = ((7 : ℕ) : ℚ) - 1) :=
  ⟨c10_fixed_dense_grid.1.2.1 14 (by norm_num),
    c10_fixed_dense_grid.2.1 [1, 2, 1] [9, 9] [2 / 100, 4 / 100, 8 / 100]
      [1, 2, 3, 4, 5, 6, 7] 1 3 none none (fun q => q) (fun q => q)
      (by norm_num) (by norm_num) (by norm_num) (by norm_num),
    c10_fixed_dense_grid.2.2.2 7 (by norm_num)⟩
